import Mathlib

/-! Shallow embedding of src/CompareCompression.py.

The script benchmarks six GDAL GTiff compression variants of one source
image: it encodes the image under each variant while timing the writes
(generate_compressed_images), reads the byte size of each artifact
(calculate_file_size), decodes each artifact while timing the reads
(calculate_read_times), deletes the artifacts and the scratch directory
(remove_directory), and prints a 3 x 6 pandas table (print_results).

External effects (GDAL calls, the clock, the filesystem) are modelled by an
oracle `Env` describing how the outside world behaves during one run, and a
small filesystem state `FS` for the scratch-directory lifecycle. Durations
are abstract naturals supplied by the oracle. A table cell is either the
empty-string sentinel each per-variant variable is initialised with, a
duration, or a formatted size string.
-/

/-- One position of a measurement row: the script initialises each
per-variant variable to the empty string and overwrites it with a float
duration or a formatted size string. -/
inductive Cell where
  | empty : Cell
  | dur : Nat → Cell
  | str : String → Cell
deriving DecidableEq

/-- Observable actions of one run, in program order: a gdal.Translate call,
an os.path.getsize call, a full ReadAsArray of an artifact, an os.remove
call, an os.removedirs call, and the final pandas table print. -/
inductive Event where
  | encode : String → Event
  | sizeCheck : String → Event
  | decode : String → Event
  | removeFile : String → Event
  | removeDir : String → Event
  | report : Event
deriving DecidableEq

/-- os.path.join for the two-component joins the script performs. -/
def joinPath (d s : String) : String := d ++ "/" ++ s

/-- os.path.dirname: everything before the last slash; empty when the path
has no slash (the filesystem root also collapses to the empty string in
this model, which only affects where ancestor pruning stops). -/
def os_dirname (p : String) : String :=
  match (p.data.reverse).dropWhile (fun c => c ≠ '/') with
  | [] => ""
  | _ :: tail => String.mk tail.reverse

/-- Line 34: tmp_dir = os.path.join(os.path.dirname(src_img), "tmp"). The
source image path (already made absolute by os.path.abspath) is the
parameter `src`. -/
def tmp_dir (src : String) : String := joinPath (os_dirname src) "tmp"

/-- Line 39: uncompressed = os.path.join(tmp_dir, "uncompressed.tif"). -/
def uncompressed (src : String) : String := joinPath (tmp_dir src) "uncompressed.tif"

/-- Line 40: packbits = os.path.join(tmp_dir, "packbits.tif"). -/
def packbits (src : String) : String := joinPath (tmp_dir src) "packbits.tif"

/-- Line 41: deflate_1 = os.path.join(tmp_dir, "deflate_1.tif"). -/
def deflate_1 (src : String) : String := joinPath (tmp_dir src) "deflate_1.tif"

/-- Line 42: deflate_2 = os.path.join(tmp_dir, "deflate_2.tif"). -/
def deflate_2 (src : String) : String := joinPath (tmp_dir src) "deflate_2.tif"

/-- Line 43: lzw_1 = os.path.join(tmp_dir, "lzw_1.tif"). -/
def lzw_1 (src : String) : String := joinPath (tmp_dir src) "lzw_1.tif"

/-- Line 44: lzw_2 = os.path.join(tmp_dir, "lzw_2.tif"). -/
def lzw_2 (src : String) : String := joinPath (tmp_dir src) "lzw_2.tif"

/-- Line 47: files = [uncompressed, packbits, deflate_1, deflate_2, lzw_1,
lzw_2]. -/
def files (src : String) : List String :=
  [uncompressed src, packbits src, deflate_1 src, deflate_2 src, lzw_1 src, lzw_2 src]

/-- Oracle for the external world during one run: whether gdal.Translate
raises for a given destination path and the elapsed time it takes, what
os.path.getsize returns for a path (none models the OSError raised for a
missing or unreadable file), whether the full read of an artifact raises
and how long it takes, and whether os.remove of a path raises even though
the file exists (permission error). -/
structure Env where
  translateFails : String → Bool
  writeDur : String → Nat
  getSize : String → Option Nat
  readFails : String → Bool
  readDur : String → Nat
  removeFails : String → Bool

/-- The six per-variant local variables of one stage, in catalog order
(uncompressed, packbits, deflate_1, deflate_2, lzw_1, lzw_2). -/
structure Vars where
  v0 : Cell
  v1 : Cell
  v2 : Cell
  v3 : Cell
  v4 : Cell
  v5 : Cell
deriving DecidableEq

/-- All six variables start as the empty string (lines 74 to 79, 162 to
167, 223 to 228). -/
def emptyVars : Vars := ⟨Cell.empty, Cell.empty, Cell.empty, Cell.empty, Cell.empty, Cell.empty⟩

/-- Assign the variable at a catalog position. -/
def Vars.set (v : Vars) (i : Nat) (c : Cell) : Vars :=
  if i = 0 then { v with v0 := c }
  else if i = 1 then { v with v1 := c }
  else if i = 2 then { v with v2 := c }
  else if i = 3 then { v with v3 := c }
  else if i = 4 then { v with v4 := c }
  else if i = 5 then { v with v5 := c }
  else v

/-- Assemble the output list from the six variables (lines 137, 197, 273). -/
def Vars.row (v : Vars) : List Cell := [v.v0, v.v1, v.v2, v.v3, v.v4, v.v5]

/-- The if/elif chain each stage loop runs on a path (file == uncompressed,
elif file == packbits, ...): the catalog position of the first matching
module-level path variable, none for the final else branch. -/
def catalogIndex (src f : String) : Option Nat :=
  if f = uncompressed src then some 0
  else if f = packbits src then some 1
  else if f = deflate_1 src then some 2
  else if f = deflate_2 src then some 3
  else if f = lzw_1 src then some 4
  else if f = lzw_2 src then some 5
  else none

/-- Common shape of the three measurement loops (the bodies of the six
if/elif branches are identical except for which variable they assign and
which external call they make): walk in_files; a path matching no variant
is skipped by the else branch without any external call; a matching path
performs the external call (`ev` names it in the trace) and either raises
(`fail`, which aborts the loop and makes the result none, mirroring the
exception escaping to the function-level except handler) or assigns `val`
to the variable at the matched position and continues. -/
def stageLoop (src : String) (fail : String → Bool) (val : String → Cell)
    (ev : String → Event) : List String → Vars → Option Vars × List Event
  | [], v => (some v, [])
  | f :: rest, v =>
    match catalogIndex src f with
    | none => stageLoop src fail val ev rest v
    | some i =>
      if fail f then (none, [ev f])
      else
        ((stageLoop src fail val ev rest (v.set i (val f))).fst,
         ev f :: (stageLoop src fail val ev rest (v.set i (val f))).snd)

/-- Lines 56 to 149: per matching file, gdal.Translate with the variant
command string, timing the write; the whole body sits in one try/except, so
any raised error makes the function print FAIL and return None. The first
component is the returned value (none models the Python None), the second
the trace of attempted encodes. -/
def generate_compressed_images (src : String) (env : Env) (in_files : List String) :
    Option (List Cell) × List Event :=
  ((stageLoop src env.translateFails (fun f => Cell.dur (env.writeDur f))
      Event.encode in_files emptyVars).fst.map Vars.row,
   (stageLoop src env.translateFails (fun f => Cell.dur (env.writeDur f))
      Event.encode in_files emptyVars).snd)

/-- hurry.filesize si factor table: base 1000 magnitudes. -/
def si_factors : List (Nat × String) :=
  [(1000 ^ 5, "P"), (1000 ^ 4, "T"), (1000 ^ 3, "G"), (1000 ^ 2, "M"), (1000, "K"), (1, "B")]

/-- The for/break scan of hurry.filesize.size: first factor not exceeding
the byte count, or the last table entry when the loop exhausts. -/
def pickFactor (bytes : Nat) : List (Nat × String) → Nat × String
  | [] => (1, "B")
  | (f, s) :: rest =>
    if f ≤ bytes then (f, s)
    else
      match rest with
      | [] => (f, s)
      | _ :: _ => pickFactor bytes rest

/-- hurry.filesize.size(bytes, system=si): truncated quotient by the picked
base-1000 factor, suffixed with its unit letter. -/
def hurry_size (bytes : Nat) : String :=
  toString (bytes / (pickFactor bytes si_factors).fst) ++ (pickFactor bytes si_factors).snd

/-- Lines 153 to 209: per matching file, size(os.path.getsize(file),
system=si); os.path.getsize raising (missing or unreadable artifact)
escapes the loop to the function-level except handler, which prints FAIL
and returns None. -/
def calculate_file_size (src : String) (env : Env) (in_files : List String) :
    Option (List Cell) × List Event :=
  ((stageLoop src (fun f => (env.getSize f).isNone)
      (fun f => Cell.str (hurry_size ((env.getSize f).getD 0)))
      Event.sizeCheck in_files emptyVars).fst.map Vars.row,
   (stageLoop src (fun f => (env.getSize f).isNone)
      (fun f => Cell.str (hurry_size ((env.getSize f).getD 0)))
      Event.sizeCheck in_files emptyVars).snd)

/-- Lines 213 to 285: per matching file, time gdal.Open(file).ReadAsArray();
a raised error (for a missing artifact gdal.Open returns None and the
ReadAsArray attribute access raises) escapes to the function-level except
handler, which prints FAIL and returns None. -/
def calculate_read_times (src : String) (env : Env) (in_files : List String) :
    Option (List Cell) × List Event :=
  ((stageLoop src env.readFails (fun f => Cell.dur (env.readDur f))
      Event.decode in_files emptyVars).fst.map Vars.row,
   (stageLoop src env.readFails (fun f => Cell.dur (env.readDur f))
      Event.decode in_files emptyVars).snd)

/-- Minimal filesystem state: the regular files that exist and the
directories that exist, each as a full path. -/
structure FS where
  theFiles : List String
  dirs : List String
deriving DecidableEq

/-- os.path.exists: true when the path is an existing file or directory. -/
def path_exists (fs : FS) (p : String) : Bool :=
  fs.theFiles.contains p || fs.dirs.contains p

/-- os.makedirs on the leaf directory (intermediate-directory creation is
not modelled because the scratch parent is the directory of the source
image); raises FileExistsError when the path already exists. -/
def makedirs (fs : FS) (d : String) : Option FS :=
  if path_exists fs d then none else some { fs with dirs := d :: fs.dirs }

/-- Lines 35 to 36: if not os.path.exists(tmp_dir): os.makedirs(tmp_dir).
The none result models an uncaught exception at module top level. -/
def prepare (fs : FS) (d : String) : Option FS :=
  if path_exists fs d then some fs else makedirs fs d

/-- Lines 31 to 36, the module top level before main: src_img is taken
from argv with os.path.abspath (no existence check of any kind), then the
scratch directory is created if absent. The source path is not consulted. -/
def module_startup (src : String) (fs : FS) : Option FS :=
  let _ := src
  prepare fs (tmp_dir src)

/-- A directory is empty when no existing file or directory has it as its
dirname. -/
def dirEmpty (fs : FS) (d : String) : Bool :=
  fs.theFiles.all (fun f => !(os_dirname f == d)) &&
  fs.dirs.all (fun x => !(os_dirname x == d))

/-- os.rmdir: fails (none) unless the directory exists and is empty. -/
def rmdir (fs : FS) (d : String) : Option FS :=
  if fs.dirs.contains d && dirEmpty fs d then
    some { fs with dirs := fs.dirs.erase d }
  else none

/-- The ancestor-pruning phase of os.removedirs: after the leaf directory
is gone, successively rmdir each ancestor, stopping silently at the first
one that fails; fuel bounds the ascent. -/
def pruneAncestors (fs : FS) (d : String) : Nat → FS
  | 0 => fs
  | n + 1 =>
    let p := os_dirname d
    if p = "" || p = d then fs
    else
      match rmdir fs p with
      | some fs2 => pruneAncestors fs2 p n
      | none => fs

/-- os.removedirs(d): rmdir the leaf (a failure there raises, hence none),
then prune every now-empty ancestor. -/
def os_removedirs (fs : FS) (d : String) : Option FS :=
  (rmdir fs d).map (fun fs2 => pruneAncestors fs2 d d.length)

/-- Lines 298 to 299: the deletion loop, for file in in_files:
os.remove(file). os.remove raises when the file is missing or on a
permission error; the exception aborts the loop (the Bool component is
false) and later files are not attempted. -/
def removeLoop (env : Env) : List String → FS → FS × Bool × List Event
  | [], fs => (fs, true, [])
  | f :: rest, fs =>
    if fs.theFiles.contains f && !env.removeFails f then
      ((removeLoop env rest { fs with theFiles := fs.theFiles.erase f }).fst,
       (removeLoop env rest { fs with theFiles := fs.theFiles.erase f }).snd.fst,
       Event.removeFile f ::
         (removeLoop env rest { fs with theFiles := fs.theFiles.erase f }).snd.snd)
    else (fs, false, [Event.removeFile f])

/-- Lines 289 to 309: delete every path in in_files, then
os.removedirs(delete_directory); the whole body sits in one try/except, so
any raised error (from os.remove or os.removedirs) is logged and the
function returns normally. When the deletion loop raises, os.removedirs is
never reached. -/
def remove_directory (env : Env) (in_files : List String) (delete_directory : String)
    (fs : FS) : FS × List Event :=
  let r := removeLoop env in_files fs
  if r.snd.fst then
    match os_removedirs r.fst delete_directory with
    | some fs3 => (fs3, r.snd.snd ++ [Event.removeDir delete_directory])
    | none => (r.fst, r.snd.snd ++ [Event.removeDir delete_directory])
  else (r.fst, r.snd.snd)

/-- The observable outcome of main (lines 336 to 365): the three stage
return values, the filesystem after teardown, the ordered trace of
external actions, and the argument triple main passes to print_results on
line 351, in its source order (sizes, writes, reads). -/
structure RunResult where
  writes : Option (List Cell)
  sizes : Option (List Cell)
  reads : Option (List Cell)
  fsAfter : FS
  trace : List Event
  reportArgs : Option (List Cell) × Option (List Cell) × Option (List Cell)
deriving DecidableEq

/-- Lines 347 to 351: writes = generate_compressed_images(files, src_img);
sizes = calculate_file_size(files); reads = calculate_read_times(files);
remove_directory(files, tmp_dir); print_results(sizes, writes, reads,
rows, columns). The trace is the concatenation of the stage traces in that
order, ended by the table print. -/
def mainRun (src : String) (env : Env) (fs : FS) : RunResult :=
  { writes := (generate_compressed_images src env (files src)).fst
    sizes := (calculate_file_size src env (files src)).fst
    reads := (calculate_read_times src env (files src)).fst
    fsAfter := (remove_directory env (files src) (tmp_dir src) fs).fst
    trace := (generate_compressed_images src env (files src)).snd ++
      (calculate_file_size src env (files src)).snd ++
      (calculate_read_times src env (files src)).snd ++
      (remove_directory env (files src) (tmp_dir src) fs).snd ++ [Event.report]
    reportArgs := ((calculate_file_size src env (files src)).fst,
      (generate_compressed_images src env (files src)).fst,
      (calculate_read_times src env (files src)).fst) }

/-- Event classifiers for the sequencing statements. -/
def isEncodeEv : Event → Bool
  | Event.encode _ => true
  | _ => false

def isSizeEv : Event → Bool
  | Event.sizeCheck _ => true
  | _ => false

def isDecodeEv : Event → Bool
  | Event.decode _ => true
  | _ => false

def isTeardownEv : Event → Bool
  | Event.removeFile _ => true
  | Event.removeDir _ => true
  | _ => false

/-- Concrete source image path used by the closed test runs. -/
def cSrc : String := "/data/img.tif"

/-- Fully benign oracle: nothing fails, writes take 1 tick, reads 2 ticks,
every artifact reports 2500 bytes. -/
def cEnvOk : Env :=
  { translateFails := fun _ => false
    writeDur := fun _ => 1
    getSize := fun _ => some 2500
    readFails := fun _ => false
    readDur := fun _ => 2
    removeFails := fun _ => false }

/-- Oracle in which only the encode of the first variant raises. -/
def cEnvEncFail : Env := { cEnvOk with translateFails := fun f => f == uncompressed cSrc }

/-- Oracle in which only os.path.getsize of the third variant raises. -/
def cEnvSize2 : Env :=
  { cEnvOk with getSize := fun f => if f == deflate_1 cSrc then none else some 2500 }

/-- Oracle in which only os.path.getsize of the first variant raises. -/
def cEnvSize4 : Env :=
  { cEnvOk with getSize := fun f => if f == uncompressed cSrc then none else some 2500 }

/-- Oracle in which only os.remove of the second artifact raises. -/
def cEnvRm : Env := { cEnvOk with removeFails := fun f => f == packbits cSrc }

/-- Oracle in which every stage has a failing call. -/
def cEnvAllFail : Env :=
  { cEnvOk with
    translateFails := fun _ => true
    getSize := fun _ => none
    readFails := fun _ => true }

/-- Filesystem holding the six artifacts, the scratch directory and its
parent; the source image itself is already gone, so the parent directory
can become empty during teardown. -/
def cFS : FS := ⟨files cSrc, ["/data/tmp", "/data"]⟩

/-- Filesystem with no files at all and only the parent directory. -/
def cFS5 : FS := ⟨[], ["/data"]⟩

/-- Two strings with the same character data are equal. -/
theorem string_eq_of_data {a b : String} (h : a.data = b.data) : a = b := by
  rcases a with ⟨x⟩
  rcases b with ⟨y⟩
  cases h
  rfl

/-- Joining two different names onto the same directory gives different
paths, because append is left-cancellative on the character data. -/
theorem joinPath_inj (t : String) : Function.Injective (joinPath t) := by
  intro a b h
  have hd := congrArg String.data h
  simp only [joinPath, String.data_append] at hd
  exact string_eq_of_data (List.append_cancel_left hd)

/-- The first branch of the if/elif chain fires on the uncompressed path. -/
theorem catalogIndex_uncompressed (src : String) :
    catalogIndex src (uncompressed src) = some 0 := by
  simp [catalogIndex]

/-- The second branch fires on the packbits path. -/
theorem catalogIndex_packbits (src : String) :
    catalogIndex src (packbits src) = some 1 := by
  have h : packbits src ≠ uncompressed src := fun h =>
    absurd (joinPath_inj (tmp_dir src) h) (by decide)
  simp [catalogIndex, packbits, uncompressed] at h ⊢
  simp [h]

/-- The third branch fires on the deflate_1 path. -/
theorem catalogIndex_deflate_1 (src : String) :
    catalogIndex src (deflate_1 src) = some 2 := by
  have h1 : deflate_1 src ≠ uncompressed src := fun h =>
    absurd (joinPath_inj (tmp_dir src) h) (by decide)
  have h2 : deflate_1 src ≠ packbits src := fun h =>
    absurd (joinPath_inj (tmp_dir src) h) (by decide)
  simp [catalogIndex, deflate_1, uncompressed, packbits] at h1 h2 ⊢
  simp [h1, h2]

/-- The fourth branch fires on the deflate_2 path. -/
theorem catalogIndex_deflate_2 (src : String) :
    catalogIndex src (deflate_2 src) = some 3 := by
  have h1 : deflate_2 src ≠ uncompressed src := fun h =>
    absurd (joinPath_inj (tmp_dir src) h) (by decide)
  have h2 : deflate_2 src ≠ packbits src := fun h =>
    absurd (joinPath_inj (tmp_dir src) h) (by decide)
  have h3 : deflate_2 src ≠ deflate_1 src := fun h =>
    absurd (joinPath_inj (tmp_dir src) h) (by decide)
  simp [catalogIndex, deflate_2, uncompressed, packbits, deflate_1] at h1 h2 h3 ⊢
  simp [h1, h2, h3]

/-- The fifth branch fires on the lzw_1 path. -/
theorem catalogIndex_lzw_1 (src : String) :
    catalogIndex src (lzw_1 src) = some 4 := by
  have h1 : lzw_1 src ≠ uncompressed src := fun h =>
    absurd (joinPath_inj (tmp_dir src) h) (by decide)
  have h2 : lzw_1 src ≠ packbits src := fun h =>
    absurd (joinPath_inj (tmp_dir src) h) (by decide)
  have h3 : lzw_1 src ≠ deflate_1 src := fun h =>
    absurd (joinPath_inj (tmp_dir src) h) (by decide)
  have h4 : lzw_1 src ≠ deflate_2 src := fun h =>
    absurd (joinPath_inj (tmp_dir src) h) (by decide)
  simp [catalogIndex, lzw_1, uncompressed, packbits, deflate_1, deflate_2] at h1 h2 h3 h4 ⊢
  simp [h1, h2, h3, h4]

/-- The sixth branch fires on the lzw_2 path. -/
theorem catalogIndex_lzw_2 (src : String) :
    catalogIndex src (lzw_2 src) = some 5 := by
  have h1 : lzw_2 src ≠ uncompressed src := fun h =>
    absurd (joinPath_inj (tmp_dir src) h) (by decide)
  have h2 : lzw_2 src ≠ packbits src := fun h =>
    absurd (joinPath_inj (tmp_dir src) h) (by decide)
  have h3 : lzw_2 src ≠ deflate_1 src := fun h =>
    absurd (joinPath_inj (tmp_dir src) h) (by decide)
  have h4 : lzw_2 src ≠ deflate_2 src := fun h =>
    absurd (joinPath_inj (tmp_dir src) h) (by decide)
  have h5 : lzw_2 src ≠ lzw_1 src := fun h =>
    absurd (joinPath_inj (tmp_dir src) h) (by decide)
  simp [catalogIndex, lzw_2, uncompressed, packbits, deflate_1, deflate_2, lzw_1] at h1 h2 h3 h4 h5 ⊢
  simp [h1, h2, h3, h4, h5]

/-- Every path of the catalog list matches some branch of the chain. -/
theorem catalogIndex_isSome_of_mem {src f : String} (hf : f ∈ files src) :
    (catalogIndex src f).isSome = true := by
  simp only [files, List.mem_cons, List.not_mem_nil, or_false] at hf
  rcases hf with h | h | h | h | h | h <;> subst h
  · rw [catalogIndex_uncompressed]; rfl
  · rw [catalogIndex_packbits]; rfl
  · rw [catalogIndex_deflate_1]; rfl
  · rw [catalogIndex_deflate_2]; rfl
  · rw [catalogIndex_lzw_1]; rfl
  · rw [catalogIndex_lzw_2]; rfl

/-- When some path of in_files matches a branch of the chain and its
external call raises, the exception escapes the loop: the stage result is
none, whatever the accumulated variables were. -/
theorem stageLoop_fst_none (src : String) (fail : String → Bool) (val : String → Cell)
    (ev : String → Event) {l : List String} {f : String} (hf : f ∈ l)
    (hi : (catalogIndex src f).isSome = true) (hfail : fail f = true) :
    ∀ v, (stageLoop src fail val ev l v).fst = none := by
  induction l with
  | nil => cases hf
  | cons a rest ih =>
    intro v
    rcases List.mem_cons.mp hf with h | h
    · subst h
      simp only [stageLoop]
      cases hcat : catalogIndex src f with
      | none => rw [hcat] at hi; simp at hi
      | some i => simp [hcat, hfail]
    · simp only [stageLoop]
      cases hcat : catalogIndex src a with
      | none => exact ih h v
      | some i =>
        by_cases hfa : fail a = true
        · simp [hcat, hfa]
        · simp only [hcat, Bool.not_eq_true] at hfa ⊢
          simp [hfa, ih h]

/-- Every event a stage loop emits names its own external call. -/
theorem stageLoop_snd_all (src : String) (fail : String → Bool) (val : String → Cell)
    (ev : String → Event) (p : Event → Bool) (hp : ∀ f, p (ev f) = true)
    (l : List String) : ∀ v, ((stageLoop src fail val ev l v).snd).all p = true := by
  induction l with
  | nil => intro v; rfl
  | cons a rest ih =>
    intro v
    simp only [stageLoop]
    cases hcat : catalogIndex src a with
    | none => exact ih v
    | some i =>
      by_cases hfa : fail a = true
      · simp [hcat, hfa, hp]
      · simp only [hcat, Bool.not_eq_true] at hfa ⊢
        simp [hfa, hp, ih]

/-- A run of a stage loop over the whole catalog in which no external call
raises: every branch fires once in catalog order, each variable receives
its value, and the returned pair is the assembled row and the six events. -/
theorem stageLoop_files (src : String) (fail : String → Bool) (val : String → Cell)
    (ev : String → Event) (h : ∀ f ∈ files src, fail f = false) :
    stageLoop src fail val ev (files src) emptyVars =
      (some ⟨val (uncompressed src), val (packbits src), val (deflate_1 src),
        val (deflate_2 src), val (lzw_1 src), val (lzw_2 src)⟩,
       [ev (uncompressed src), ev (packbits src), ev (deflate_1 src),
        ev (deflate_2 src), ev (lzw_1 src), ev (lzw_2 src)]) := by
  have h1 := h (uncompressed src) (by simp [files])
  have h2 := h (packbits src) (by simp [files])
  have h3 := h (deflate_1 src) (by simp [files])
  have h4 := h (deflate_2 src) (by simp [files])
  have h5 := h (lzw_1 src) (by simp [files])
  have h6 := h (lzw_2 src) (by simp [files])
  simp [files, stageLoop, catalogIndex_uncompressed, catalogIndex_packbits,
    catalogIndex_deflate_1, catalogIndex_deflate_2, catalogIndex_lzw_1,
    catalogIndex_lzw_2, h1, h2, h3, h4, h5, h6, Vars.set, emptyVars]

/-- Every event the deletion loop emits is an os.remove call. -/
theorem removeLoop_trace_all (env : Env) (p : Event → Bool)
    (hp : ∀ f, p (Event.removeFile f) = true) (l : List String) :
    ∀ fs, ((removeLoop env l fs).snd.snd).all p = true := by
  induction l with
  | nil => intro fs; rfl
  | cons a rest ih =>
    intro fs
    simp only [removeLoop]
    split
    · simp [hp, ih]
    · simp [hp]

/-- Every event teardown emits is an os.remove or an os.removedirs call. -/
theorem remove_directory_trace_all (env : Env) (l : List String) (d : String) (fs : FS) :
    ((remove_directory env l d fs).snd).all isTeardownEv = true := by
  have hl := removeLoop_trace_all env isTeardownEv (fun f => rfl) l fs
  simp only [remove_directory]
  by_cases hok : (removeLoop env l fs).snd.fst = true
  · simp only [hok, if_true]
    cases hrd : os_removedirs (removeLoop env l fs).fst d with
    | some fs3 => simp [hrd, List.all_append, hl, isTeardownEv]
    | none => simp [hrd, List.all_append, hl, isTeardownEv]
  · simp only [Bool.not_eq_true] at hok
    simp [hok, hl]

/-- Claim C6: the stages of main execute strictly sequentially in the order
encode, size inspection, decode, cleanup, report: the run trace decomposes
as a block of encode events, then a block of size-check events, then a
block of decode events, then a block of teardown events, then the single
report event; since the blocks are homogeneous, every encode precedes
every size check, every size check precedes every decode, and teardown
runs after all measurements and before the report. -/
theorem C6_sequencing (src : String) (env : Env) (fs : FS) :
    ∃ t1 t2 t3 t4,
      (mainRun src env fs).trace = t1 ++ t2 ++ t3 ++ t4 ++ [Event.report] ∧
      t1.all isEncodeEv = true ∧ t2.all isSizeEv = true ∧
      t3.all isDecodeEv = true ∧ t4.all isTeardownEv = true := by
  refine ⟨(generate_compressed_images src env (files src)).snd,
    (calculate_file_size src env (files src)).snd,
    (calculate_read_times src env (files src)).snd,
    (remove_directory env (files src) (tmp_dir src) fs).snd, rfl, ?_, ?_, ?_, ?_⟩
  · exact stageLoop_snd_all src _ _ Event.encode isEncodeEv (fun f => rfl) (files src) emptyVars
  · exact stageLoop_snd_all src _ _ Event.sizeCheck isSizeEv (fun f => rfl) (files src) emptyVars
  · exact stageLoop_snd_all src _ _ Event.decode isDecodeEv (fun f => rfl) (files src) emptyVars
  · exact remove_directory_trace_all env (files src) (tmp_dir src) fs

/-- Claim C9: each row-producing stage wraps its whole body in a catch-all
handler, so any raised call inside its loop makes the stage return None
instead of a six-element row, and main passes whatever the stages returned
(None included) straight to print_results as the triple (sizes, writes,
reads). -/
theorem C9_catch_all_none (src : String) (env : Env) (fs : FS) :
    ((∃ f, f ∈ files src ∧ env.translateFails f = true) →
      (mainRun src env fs).writes = none) ∧
    ((∃ f, f ∈ files src ∧ (env.getSize f).isNone = true) →
      (mainRun src env fs).sizes = none) ∧
    ((∃ f, f ∈ files src ∧ env.readFails f = true) →
      (mainRun src env fs).reads = none) ∧
    (mainRun src env fs).reportArgs =
      ((mainRun src env fs).sizes, (mainRun src env fs).writes, (mainRun src env fs).reads) := by
  refine ⟨?_, ?_, ?_, rfl⟩
  · rintro ⟨f, hf, hfail⟩
    show (stageLoop src env.translateFails _ Event.encode (files src) emptyVars).fst.map Vars.row
      = none
    rw [stageLoop_fst_none src env.translateFails _ Event.encode hf
      (catalogIndex_isSome_of_mem hf) hfail emptyVars]
    rfl
  · rintro ⟨f, hf, hfail⟩
    show (stageLoop src (fun f => (env.getSize f).isNone) _ Event.sizeCheck (files src)
      emptyVars).fst.map Vars.row = none
    rw [stageLoop_fst_none src (fun f => (env.getSize f).isNone) _ Event.sizeCheck hf
      (catalogIndex_isSome_of_mem hf) hfail emptyVars]
    rfl
  · rintro ⟨f, hf, hfail⟩
    show (stageLoop src env.readFails _ Event.decode (files src) emptyVars).fst.map Vars.row
      = none
    rw [stageLoop_fst_none src env.readFails _ Event.decode hf
      (catalogIndex_isSome_of_mem hf) hfail emptyVars]
    rfl

/-- Witness for C9: with every external call failing, all three stage
results are None and print_results receives the triple (None, None, None). -/
theorem C9_catch_all_none_witness :
    (mainRun cSrc cEnvAllFail cFS).writes = none ∧
    (mainRun cSrc cEnvAllFail cFS).sizes = none ∧
    (mainRun cSrc cEnvAllFail cFS).reads = none ∧
    (mainRun cSrc cEnvAllFail cFS).reportArgs = (none, none, none) := by
  have h := C9_catch_all_none cSrc cEnvAllFail cFS
  have hw := h.1 ⟨uncompressed cSrc, by decide, rfl⟩
  have hs := h.2.1 ⟨uncompressed cSrc, by decide, rfl⟩
  have hr := h.2.2.1 ⟨uncompressed cSrc, by decide, rfl⟩
  exact ⟨hw, hs, hr, by rw [h.2.2.2, hw, hs, hr]⟩

/-- Claim C1 counterexample: with an oracle in which only the encode of
the first variant raises, generate_compressed_images does not record a
sentinel and continue — the loop stops at the first encode attempt and the
function returns None, so no write row exists for the run. -/
theorem C1_counterexample :
    generate_compressed_images cSrc cEnvEncFail (files cSrc) =
      (none, [Event.encode (uncompressed cSrc)]) := by decide

/-- Claim C1 as amended: when the encode of any variant raises, the
exception escapes the per-variant loop to the function-level except
handler, which logs it and returns None; no write-duration row is produced
for the run. -/
theorem C1_encode_failure (src : String) (env : Env) (f : String) (hf : f ∈ files src)
    (hfail : env.translateFails f = true) :
    (generate_compressed_images src env (files src)).fst = none := by
  show (stageLoop src env.translateFails _ Event.encode (files src) emptyVars).fst.map Vars.row
    = none
  rw [stageLoop_fst_none src env.translateFails _ Event.encode hf
    (catalogIndex_isSome_of_mem hf) hfail emptyVars]
  rfl

/-- Witness for the amended C1 at the concrete failing run. -/
theorem C1_encode_failure_witness :
    (uncompressed cSrc ∈ files cSrc) ∧
    cEnvEncFail.translateFails (uncompressed cSrc) = true ∧
    (generate_compressed_images cSrc cEnvEncFail (files cSrc)).fst = none :=
  ⟨by decide, by decide,
    C1_encode_failure cSrc cEnvEncFail (uncompressed cSrc) (by decide) (by decide)⟩

/-- A produced measurement row always has exactly six positions. -/
theorem row_length_of_some {o : Option Vars} {r : List Cell}
    (h : o.map Vars.row = some r) : r.length = 6 := by
  cases o with
  | none => simp at h
  | some v =>
    simp only [Option.map_some', Option.some.injEq] at h
    rw [← h]
    rfl

/-- Claim C2 counterexample: in a run where os.path.getsize raises for the
third artifact, the size stage returns None — not a six-element list. -/
theorem C2_counterexample :
    (calculate_file_size cSrc cEnvSize2 (files cSrc)).fst = none := by decide

/-- Claim C2 as amended: whenever a stage returns a row at all, the row
has exactly six positions aligned with the catalog, and a variant absent
from in_files keeps the empty-string sentinel at its own position without
shifting the others; but a failed measurement does not produce a sentinel:
it makes the whole stage return None instead of a row. -/
theorem C2_row_shape (src : String) (env : Env) (in_files : List String) :
    (∀ r, (generate_compressed_images src env in_files).fst = some r → r.length = 6) ∧
    (∀ r, (calculate_file_size src env in_files).fst = some r → r.length = 6) ∧
    (∀ r, (calculate_read_times src env in_files).fst = some r → r.length = 6) ∧
    (env.translateFails (packbits src) = false →
      (generate_compressed_images src env [packbits src]).fst =
        some [Cell.empty, Cell.dur (env.writeDur (packbits src)),
          Cell.empty, Cell.empty, Cell.empty, Cell.empty]) := by
  refine ⟨fun r hr => row_length_of_some hr, fun r hr => row_length_of_some hr,
    fun r hr => row_length_of_some hr, fun hpb => ?_⟩
  show (stageLoop src env.translateFails _ Event.encode [packbits src] emptyVars).fst.map Vars.row
    = _
  simp [stageLoop, catalogIndex_packbits, hpb, Vars.set, emptyVars, Vars.row]

/-- Witness for the amended C2: a run encoding only the packbits variant
yields a six-element row with the measured duration in position two and
the sentinel elsewhere. -/
theorem C2_row_shape_witness :
    (generate_compressed_images cSrc cEnvOk [packbits cSrc]).fst =
      some [Cell.empty, Cell.dur 1, Cell.empty, Cell.empty, Cell.empty, Cell.empty] ∧
    ([Cell.empty, Cell.dur 1, Cell.empty, Cell.empty, Cell.empty, Cell.empty] :
      List Cell).length = 6 := by
  have h4 := (C2_row_shape cSrc cEnvOk [packbits cSrc]).2.2.2 rfl
  exact ⟨h4, (C2_row_shape cSrc cEnvOk [packbits cSrc]).1 _ h4⟩

/-- Claim C3 counterexample: with os.remove raising on the second
artifact, teardown stops there — the four later artifacts are still on
disk, no removal of them is attempted, and os.removedirs is never reached
(no removeDir event), although the function itself returns normally. -/
theorem C3_counterexample :
    remove_directory cEnvRm (files cSrc) (tmp_dir cSrc) cFS =
      (⟨[packbits cSrc, deflate_1 cSrc, deflate_2 cSrc, lzw_1 cSrc, lzw_2 cSrc],
        ["/data/tmp", "/data"]⟩,
       [Event.removeFile (uncompressed cSrc), Event.removeFile (packbits cSrc)]) := by decide

/-- Claim C3 as amended: when deleting an artifact errors, the exception
escapes the deletion loop to the function-level except handler, which logs
it and returns normally, so the overall run is not aborted; but the
remaining artifacts are not attempted and directory removal is skipped. -/
theorem C3_teardown_stops (env : Env) (fs : FS) (f : String) (rest : List String)
    (d : String) (h : fs.theFiles.contains f = false ∨ env.removeFails f = true) :
    remove_directory env (f :: rest) d fs = (fs, [Event.removeFile f]) := by
  have hc : ¬ ((fs.theFiles.contains f && !env.removeFails f) = true) := by
    rcases h with h | h
    · simp only [h, Bool.false_and]
      exact Bool.false_ne_true
    · simp only [h, Bool.not_true, Bool.and_false]
      exact Bool.false_ne_true
  simp only [remove_directory, removeLoop]
  rw [if_neg hc]
  simp

/-- Witness for the amended C3 at a concrete failing deletion. -/
theorem C3_teardown_stops_witness :
    remove_directory cEnvRm [packbits cSrc] (tmp_dir cSrc) cFS =
      (cFS, [Event.removeFile (packbits cSrc)]) :=
  C3_teardown_stops cEnvRm cFS (packbits cSrc) [] (tmp_dir cSrc) (Or.inr (by decide))

/-- Claim C4 counterexample: with the first artifact missing, the size
stage raises at it and returns None; the other five paths are never
inspected (one single sizeCheck event) and no sentinel row is produced. -/
theorem C4_counterexample :
    calculate_file_size cSrc cEnvSize4 (files cSrc) =
      (none, [Event.sizeCheck (uncompressed cSrc)]) := by decide

/-- Claim C4 as amended: per path the stage formats the byte size through
the base-1000 units of hurry.filesize, but errors are not caught per item:
when os.path.getsize raises for a missing first artifact, the whole
function aborts and returns None; only when every artifact is readable
does it return the row of formatted sizes, aligned with the catalog. -/
theorem C4_size_stage (src : String) (env : Env) :
    (env.getSize (uncompressed src) = none →
      (calculate_file_size src env (files src)).fst = none) ∧
    ((∀ f ∈ files src, (env.getSize f).isSome = true) →
      (calculate_file_size src env (files src)).fst =
        some ((files src).map (fun f => Cell.str (hurry_size ((env.getSize f).getD 0))))) := by
  constructor
  · intro hmiss
    show (stageLoop src (fun f => (env.getSize f).isNone) _ Event.sizeCheck (files src)
      emptyVars).fst.map Vars.row = none
    rw [stageLoop_fst_none src (fun f => (env.getSize f).isNone) _ Event.sizeCheck
      (show uncompressed src ∈ files src by simp [files])
      (catalogIndex_isSome_of_mem (show uncompressed src ∈ files src by simp [files]))
      (by simp [hmiss]) emptyVars]
    rfl
  · intro hall
    have hfail : ∀ f ∈ files src, ((env.getSize f).isNone) = false := by
      intro f hf
      have := hall f hf
      cases henv : env.getSize f with
      | none => rw [henv] at this; simp at this
      | some n => rfl
    show (stageLoop src (fun f => (env.getSize f).isNone) _ Event.sizeCheck (files src)
      emptyVars).fst.map Vars.row = _
    rw [stageLoop_files src (fun f => (env.getSize f).isNone)
      (fun f => Cell.str (hurry_size ((env.getSize f).getD 0))) Event.sizeCheck hfail]
    simp [files, Vars.row]

/-- Witness for the amended C4: the failing run returns None; the benign
run returns the six formatted sizes. -/
theorem C4_size_stage_witness :
    (calculate_file_size cSrc cEnvSize4 (files cSrc)).fst = none ∧
    (calculate_file_size cSrc cEnvOk (files cSrc)).fst =
      some ((files cSrc).map (fun f => Cell.str (hurry_size ((cEnvOk.getSize f).getD 0)))) :=
  ⟨(C4_size_stage cSrc cEnvSize4).1 (by decide),
   (C4_size_stage cSrc cEnvOk).2 (fun f _ => rfl)⟩

/-- Claim C5 counterexample: on a filesystem holding no file at all, the
source image path does not exist, yet module startup raises nothing and
creates the scratch directory anyway — there is no fail-fast input check. -/
theorem C5_counterexample :
    path_exists cFS5 cSrc = false ∧
    module_startup cSrc cFS5 = some ⟨[], ["/data/tmp", "/data"]⟩ := by decide

/-- Claim C5 as amended: the module top level never checks that the source
image exists; for a missing source it still completes startup without an
error and the scratch directory exists afterwards, the missing source only
surfacing later inside the encode stage. -/
theorem C5_no_fail_fast (src : String) (fs : FS) (_hsrc : path_exists fs src = false) :
    ∃ fs2, module_startup src fs = some fs2 ∧ path_exists fs2 (tmp_dir src) = true := by
  by_cases h : path_exists fs (tmp_dir src) = true
  · exact ⟨fs, by simp [module_startup, prepare, h], h⟩
  · simp only [Bool.not_eq_true] at h
    refine ⟨{ fs with dirs := tmp_dir src :: fs.dirs }, ?_, ?_⟩
    · simp [module_startup, prepare, makedirs, h]
    · simp [path_exists]

/-- Witness for the amended C5 at the concrete empty filesystem. -/
theorem C5_no_fail_fast_witness :
    ∃ fs2, module_startup cSrc cFS5 = some fs2 ∧ path_exists fs2 (tmp_dir cSrc) = true :=
  C5_no_fail_fast cSrc cFS5 (by decide)

/-- Claim C7: scratch directory creation is idempotent — the prepare step
never errors, running it again on its own result changes nothing, and on
an already-existing scratch path it skips creation entirely. -/
theorem C7_prepare_idempotent (fs : FS) (d : String) :
    (∃ fs2, prepare fs d = some fs2 ∧ prepare fs2 d = some fs2) ∧
    (path_exists fs d = true → prepare fs d = some fs) := by
  constructor
  · by_cases h : path_exists fs d = true
    · exact ⟨fs, by simp [prepare, h], by simp [prepare, h]⟩
    · simp only [Bool.not_eq_true] at h
      refine ⟨{ fs with dirs := d :: fs.dirs }, by simp [prepare, makedirs, h], ?_⟩
      have h2 : path_exists { fs with dirs := d :: fs.dirs } d = true := by
        simp [path_exists]
      simp [prepare, h2]
  · intro h
    simp [prepare, h]

/-- Witness for C7 on a pre-existing directory. -/
theorem C7_prepare_idempotent_witness : prepare cFS5 "/data" = some cFS5 :=
  (C7_prepare_idempotent cFS5 "/data").2 (by decide)

/-- Claim C8: the scratch directory is named tmp inside the directory of
the source image, and the six artifact paths inside it carry exactly the
six variant file names in catalog order; the six paths are pairwise
distinct. -/
theorem C8_artifact_paths (src : String) :
    tmp_dir src = joinPath (os_dirname src) "tmp" ∧
    files src = (["uncompressed.tif", "packbits.tif", "deflate_1.tif",
      "deflate_2.tif", "lzw_1.tif", "lzw_2.tif"].map (joinPath (tmp_dir src))) ∧
    (files src).Nodup := by
  have hmap : files src = (["uncompressed.tif", "packbits.tif", "deflate_1.tif",
      "deflate_2.tif", "lzw_1.tif", "lzw_2.tif"].map (joinPath (tmp_dir src))) := by
    simp [files, uncompressed, packbits, deflate_1, deflate_2, lzw_1, lzw_2]
  refine ⟨rfl, hmap, ?_⟩
  rw [hmap]
  exact (show (["uncompressed.tif", "packbits.tif", "deflate_1.tif",
    "deflate_2.tif", "lzw_1.tif", "lzw_2.tif"] : List String).Nodup by decide).map
    (joinPath_inj (tmp_dir src))

/-- Claim C10: teardown does not stop at the scratch directory — after
deleting the artifacts it calls os.removedirs, whose ancestor pruning also
removes the directory of the source image once it has become empty: here
both /data/tmp and /data are gone afterwards although only the scratch
directory was passed in. -/
theorem C10_removedirs_ancestors :
    remove_directory cEnvOk (files cSrc) (tmp_dir cSrc) cFS =
      (⟨[], []⟩,
       [Event.removeFile (uncompressed cSrc), Event.removeFile (packbits cSrc),
        Event.removeFile (deflate_1 cSrc), Event.removeFile (deflate_2 cSrc),
        Event.removeFile (lzw_1 cSrc), Event.removeFile (lzw_2 cSrc),
        Event.removeDir (tmp_dir cSrc)]) ∧
    cFS.dirs.contains (os_dirname cSrc) = true := by decide
